import Mathlib

/-!
Shallow embedding of `src/synthetic.py` (CarePortalDataGenerator).

Modelling conventions:
* The process-wide seeded generator `random` is modelled as an explicit
  stream `g : Nat → Nat` of raw draws, consumed at explicit positions that
  mirror the order of the `random.*` calls in the source.  `random.randint a b`
  at position `i` is `a + g i % (b - a + 1)`; `random.choice l` is
  `l.get? (g i % l.length)` (which is `none` exactly when `l` is empty, the
  situation where the Python call raises `IndexError`); `random.sample l k`
  is selection without replacement driven by `k` raw draws;
  `random.random() > p` is modelled as a decidable test on one raw draw.
* Datetimes are hours since 2024-01-01 00:00 (all generated datetimes are
  `datetime(2024,1,1) + timedelta(...)`); the `strftime("%Y-%m-%d")` date
  string stored in a record is modelled as the day number `hours / 24`
  (the calendar rendering is injective and monotone on the range used, so
  equality and order of stored date strings coincide with those of day
  numbers); `pd.to_datetime` of a stored date string is midnight of that
  day, i.e. `day * 24` hours.
* A pandas DataFrame argument that may be `None` is an `Option`; the need
  generator only reads the `donor_id` / `church_id` columns, so the donor
  and church tables passed to it are embedded as `Option (List String)` of
  identifiers.  A present-but-empty table makes the column choice fail
  (`none`), matching the `IndexError`/`KeyError` the source raises there.
* Functions whose Python counterpart can raise return `Option`.
-/

namespace CarePortal

/-- Python `str.zfill`: left-pad with `'0'` to the given width (inputs here
are plain digit strings). -/
def zfill (width : Nat) (s : String) : String :=
  String.mk (List.replicate (width - s.length) '0') ++ s

/-- `random.randint a b` (inclusive bounds), driven by the raw draw `g i`. -/
def randint (g : Nat → Nat) (i a b : Nat) : Nat :=
  a + g i % (b - a + 1)

/-- `random.choice l` driven by a raw draw: `none` iff `l` is empty (the
Python call raises `IndexError` on an empty sequence). -/
def choice? {α : Type} (l : List α) (r : Nat) : Option α :=
  l.get? (r % l.length)

/-- Total form of `choice?` for the fixed, concrete, non-empty lookup lists
of the generator (the default is unreachable for those lists). -/
def choiceD {α : Type} (l : List α) (d : α) (r : Nat) : α :=
  (choice? l r).getD d

/-- `random.sample l k`: `k` distinct positions chosen without replacement,
driven by one raw draw per selection. -/
def sample {α : Type} [DecidableEq α] (g : Nat → Nat) : Nat → Nat → List α → List α
  | _, 0, _ => []
  | i, k + 1, l =>
    if h : l.length = 0 then []
    else
      let x := l.get ⟨g i % l.length, Nat.mod_lt _ (Nat.pos_of_ne_zero h)⟩
      x :: sample g (i + 1) k (l.erase x)

/-- the `need_categories` dict: category name paired with its item list,
in insertion order. -/
def need_categories : List (String × List String) :=
  [("Housing", ["bed", "mattress", "bedding", "furniture", "rent assistance"]),
   ("Food", ["groceries", "meal", "food pantry items", "baby formula"]),
   ("Clothing", ["winter coat", "shoes", "school clothes", "baby clothes"]),
   ("School Supplies", ["backpack", "notebooks", "pencils", "calculator", "school uniforms"]),
   ("Transportation", ["gas card", "bus pass", "car repair", "uber/lyft credit"]),
   ("Childcare", ["diapers", "wipes", "car seat", "crib", "stroller"]),
   ("Utilities", ["electric bill", "water bill", "heating assistance"]),
   ("Medical", ["prescription assistance", "medical supplies", "first aid"])]

/-- `list(self.need_categories.keys())`. -/
def categories : List String := need_categories.map Prod.fst

def urgency_levels : List String := ["Low", "Medium", "High", "Critical"]

structure City where
  name : String
  state : String
  zips : List String
  deriving DecidableEq, Repr

def cities : List City :=
  [⟨"Atlanta", "GA", ["30301", "30302", "30303", "30304", "30305"]⟩,
   ⟨"Charlotte", "NC", ["28201", "28202", "28203", "28204", "28205"]⟩,
   ⟨"Nashville", "TN", ["37201", "37202", "37203", "37204", "37205"]⟩,
   ⟨"Birmingham", "AL", ["35201", "35202", "35203", "35204", "35205"]⟩]

def church_names : List String :=
  ["Grace Community Church", "First Baptist Church", "Hope Fellowship",
   "New Life Church", "Trinity Methodist", "Cornerstone Church",
   "Redemption Church", "Faith Assembly", "Crossroads Church",
   "Harvest Church", "The Bridge Church", "Lighthouse Church"]

def statuses : List String :=
  ["Requested", "Matched", "In Progress", "Fulfilled", "Closed", "Cancelled"]

structure Donor where
  donor_id : String
  name : String
  email : String
  phone : String
  city : String
  state : String
  zip_code : String
  /-- the source stores `";".join specialties`; the list it denotes. -/
  specialties : List String
  avg_response_time_hours : Nat
  total_fulfilled : Nat
  /-- day offset from 2024-01-01 of the stored `%Y-%m-%d` date. -/
  last_donation_date : Nat
  active : Bool
  deriving DecidableEq, Repr

/-- one iteration of the `generate_donors` loop (1-based `idx`); returns the
record and the next free stream position. -/
def donorRow (g : Nat → Nat) (i idx : Nat) : Donor × Nat :=
  let city := choiceD cities ⟨"", "", []⟩ (g i)
  let num_specialties := randint g (i + 1) 1 3
  let specialties := sample g (i + 2) num_specialties categories
  let j := i + 2 + num_specialties
  ({ donor_id := "D" ++ zfill 4 (toString idx)
     name := "Donor " ++ toString idx
     email := "donor" ++ toString idx ++ "@example.com"
     phone := "555-" ++ toString (randint g j 1000 9999)
     city := city.name
     state := city.state
     zip_code := choiceD city.zips "" (g (j + 1))
     specialties := specialties
     avg_response_time_hours := randint g (j + 2) 2 50
     total_fulfilled := randint g (j + 3) 0 50
     last_donation_date := randint g (j + 4) 0 364
     active := decide (1 ≤ g (j + 5) % 10) }, j + 6)

def donorsAux (g : Nat → Nat) : Nat → Nat → Nat → List Donor × Nat
  | i, _, 0 => ([], i)
  | i, k, n + 1 =>
    let p := donorRow g i k
    let q := donorsAux g p.2 (k + 1) n
    (p.1 :: q.1, q.2)

/-- `generate_donors`: `n` records with 1-based sequential identifiers. -/
def generate_donors (g : Nat → Nat) (i n : Nat) : List Donor × Nat :=
  donorsAux g i 1 n

structure Church where
  church_id : String
  name : String
  city : String
  state : String
  zip_code : String
  contact_name : String
  contact_email : String
  contact_phone : String
  active_volunteers : Nat
  total_fulfilled : Nat
  deriving DecidableEq, Repr

/-- one iteration of the `generate_churches` loop (1-based `idx`). -/
def churchRow (g : Nat → Nat) (i idx : Nat) : Church × Nat :=
  let city := choiceD cities ⟨"", "", []⟩ (g i)
  let base_name := church_names.getD (idx % church_names.length) ""
  let name :=
    if church_names.length < idx then base_name ++ " - " ++ city.name else base_name
  ({ church_id := "C" ++ zfill 3 (toString idx)
     name := name
     city := city.name
     state := city.state
     zip_code := choiceD city.zips "" (g (i + 1))
     contact_name := "Pastor " ++ (Char.ofNat (65 + idx % 26)).toString
     contact_email := "contact" ++ toString idx ++ "@church.org"
     contact_phone := "555-" ++ toString (randint g (i + 2) 1000 9999)
     active_volunteers := randint g (i + 3) 10 60
     total_fulfilled := randint g (i + 4) 0 100 }, i + 5)

def churchesAux (g : Nat → Nat) : Nat → Nat → Nat → List Church × Nat
  | i, _, 0 => ([], i)
  | i, k, n + 1 =>
    let p := churchRow g i k
    let q := churchesAux g p.2 (k + 1) n
    (p.1 :: q.1, q.2)

/-- `generate_churches`. -/
def generate_churches (g : Nat → Nat) (i n : Nat) : List Church × Nat :=
  churchesAux g i 1 n

structure NeedRow where
  need_id : String
  /-- stored `%Y-%m-%d` request date, as day offset from 2024-01-01. -/
  request_date : Nat
  category : String
  item_description : String
  quantity : Nat
  urgency : String
  family_id : String
  city : String
  state : String
  zip_code : String
  status : String
  /-- stored matched date (day offset), `none` when unset. -/
  matched_date : Option Nat
  /-- stored fulfilled date (day offset), `none` when unset. -/
  fulfilled_date : Option Nat
  assigned_donor_id : Option String
  assigned_church_id : Option String
  notes : String
  deriving DecidableEq, Repr

/-- the `if donors_df is not None: ... random.choice(donors_df["donor_id"].tolist())`
step: an absent table leaves the assignment unset and consumes no draw; a
present table draws one identifier and fails (`none`) iff the id list is
empty. -/
def pickFrom (ids : Option (List String)) (g : Nat → Nat) (j : Nat) :
    Option (Option String × Nat) :=
  match ids with
  | none => some (none, j)
  | some l => (choice? l (g j)).map fun x => (some x, j + 1)

/-- the conditional block of `generate_needs`: given the drawn `status` and
the request datetime (in hours), produce
`(matched hours, donor id, church id, fulfilled hours, next position)`. -/
def assignBlock (g : Nat → Nat) (j : Nat) (status : String) (requestH : Nat)
    (dIds cIds : Option (List String)) :
    Option (Option Nat × Option String × Option String × Option Nat × Nat) :=
  if status = "Matched" ∨ status = "In Progress" ∨ status = "Fulfilled" ∨ status = "Closed" then
    (pickFrom dIds g (j + 1)).bind fun pd =>
      (pickFrom cIds g pd.2).bind fun pc =>
        if status = "Fulfilled" ∨ status = "Closed" then
          some (some (requestH + randint g j 1 48), pd.1, pc.1,
                some (requestH + randint g j 1 48 + randint g pc.2 1 120), pc.2 + 1)
        else
          some (some (requestH + randint g j 1 48), pd.1, pc.1, none, pc.2)
  else
    some (none, none, none, none, j)

/-- one iteration of the `generate_needs` loop (1-based `idx`); `none` when
the Python iteration raises (donor/church choice from a present-but-empty
table). -/
def needRow (g : Nat → Nat) (i idx : Nat) (dIds cIds : Option (List String)) :
    Option (NeedRow × Nat) :=
  (assignBlock g (i + 5) (choiceD statuses "" (g (i + 4)))
      (24 * randint g (i + 3) 0 364) dIds cIds).map fun b =>
    ({ need_id := "N" ++ zfill 5 (toString idx)
       request_date := 24 * randint g (i + 3) 0 364 / 24
       category := (choiceD need_categories ("", [""]) (g i)).1
       item_description := choiceD (choiceD need_categories ("", [""]) (g i)).2 "" (g (i + 1))
       quantity := randint g b.2.2.2.2 1 6
       urgency := choiceD urgency_levels "" (g (b.2.2.2.2 + 1))
       family_id := "F" ++ zfill 4 (toString (randint g (b.2.2.2.2 + 2) 1 200))
       city := (choiceD cities ⟨"", "", []⟩ (g (i + 2))).name
       state := (choiceD cities ⟨"", "", []⟩ (g (i + 2))).state
       zip_code := choiceD (choiceD cities ⟨"", "", []⟩ (g (i + 2))).zips "" (g (b.2.2.2.2 + 3))
       status := choiceD statuses "" (g (i + 4))
       matched_date := b.1.map (· / 24)
       fulfilled_date := b.2.2.2.1.map (· / 24)
       assigned_donor_id := b.2.1
       assigned_church_id := b.2.2.1
       notes := if 7 ≤ g (b.2.2.2.2 + 4) % 10 then "Urgent need for family in crisis" else "" },
     b.2.2.2.2 + 5)

def needsAux (g : Nat → Nat) (dIds cIds : Option (List String)) :
    Nat → Nat → Nat → Option (List NeedRow × Nat)
  | i, _, 0 => some ([], i)
  | i, k, n + 1 =>
    (needRow g i k dIds cIds).bind fun p =>
      (needsAux g dIds cIds p.2 (k + 1) n).map fun q => (p.1 :: q.1, q.2)

/-- `generate_needs`. -/
def generate_needs (g : Nat → Nat) (i n : Nat) (dIds cIds : Option (List String)) :
    Option (List NeedRow × Nat) :=
  needsAux g dIds cIds i 1 n

/-- `needs_df["status"].isin(["Fulfilled", "Closed"])`. -/
def needKeep (r : NeedRow) : Bool :=
  r.status == "Fulfilled" || r.status == "Closed"

structure Fulfillment where
  fulfillment_id : String
  need_id : String
  donor_id : Option String
  church_id : Option String
  request_date : Nat
  matched_date : Nat
  fulfilled_date : Nat
  response_time_hours : Int
  fulfillment_time_hours : Int
  category : String
  donor_rating : Nat
  deriving DecidableEq, Repr

/-- one iteration of the `generate_fulfillments` loop over a retained need;
`none` when a date field is unset (`pd.to_datetime` yields `NaT` and the
duration computation raises in the source). -/
def fulfillRow (g : Nat → Nat) (i fidx : Nat) (need : NeedRow) :
    Option (Fulfillment × Nat) :=
  match need.matched_date, need.fulfilled_date with
  | some md, some fd =>
    some ({ fulfillment_id := "FH" ++ zfill 5 (toString fidx)
            need_id := need.need_id
            donor_id := need.assigned_donor_id
            church_id := need.assigned_church_id
            request_date := need.request_date
            matched_date := md
            fulfilled_date := fd
            response_time_hours := max 1 (((md : Int) - (need.request_date : Int)) * 24)
            fulfillment_time_hours := max 1 (((fd : Int) - (md : Int)) * 24)
            category := need.category
            donor_rating := randint g i 4 5 }, i + 1)
  | _, _ => none

def fulfillmentsAux (g : Nat → Nat) : Nat → Nat → List NeedRow → Option (List Fulfillment × Nat)
  | i, _, [] => some ([], i)
  | i, fidx, nd :: nds =>
    (fulfillRow g i fidx nd).bind fun p =>
      (fulfillmentsAux g p.2 (fidx + 1) nds).map fun q => (p.1 :: q.1, q.2)

/-- `generate_fulfillments`. -/
def generate_fulfillments (g : Nat → Nat) (i : Nat) (needs : List NeedRow) :
    Option (List Fulfillment × Nat) :=
  fulfillmentsAux g i 1 (needs.filter needKeep)

/-- `generate_all`: donors, churches, needs (referencing the two id columns),
then the derived fulfillment table, all drawing from the single stream. -/
def generate_all (g : Nat → Nat) (nD nC nN : Nat) :
    Option (List Donor × List Church × List NeedRow × List Fulfillment) :=
  let pd := generate_donors g 0 nD
  let pc := generate_churches g pd.2 nC
  (generate_needs g pc.2 nN (some (pd.1.map Donor.donor_id))
      (some (pc.1.map Church.church_id))).bind fun pn =>
    (generate_fulfillments g pn.2 pn.1).map fun pf => (pd.1, pc.1, pn.1, pf.1)

/-! Basic lemmas about the randomness primitives. -/

theorem randint_lower (g : Nat → Nat) (i a b : Nat) : a ≤ randint g i a b :=
  Nat.le_add_right a _

theorem choice?_eq_some {α : Type} (l : List α) (r : Nat) (h : l ≠ []) :
    ∃ x, choice? l r = some x ∧ x ∈ l := by
  have hlen : 0 < l.length := List.length_pos.mpr h
  have hm : r % l.length < l.length := Nat.mod_lt _ hlen
  exact ⟨l.get ⟨r % l.length, hm⟩, List.get?_eq_get hm, List.get_mem _ _ _⟩

theorem choiceD_mem {α : Type} (l : List α) (d : α) (r : Nat) (h : l ≠ []) :
    choiceD l d r ∈ l := by
  obtain ⟨x, hx, hmem⟩ := choice?_eq_some l r h
  simpa [choiceD, hx] using hmem

theorem status_mem (x : Nat) : choiceD statuses "" x ∈ statuses :=
  choiceD_mem _ _ _ (by decide)

theorem status_six (x : Nat) :
    choiceD statuses "" x = "Requested" ∨ choiceD statuses "" x = "Matched" ∨
    choiceD statuses "" x = "In Progress" ∨ choiceD statuses "" x = "Fulfilled" ∨
    choiceD statuses "" x = "Closed" ∨ choiceD statuses "" x = "Cancelled" := by
  have h := status_mem x
  simpa [statuses] using h

theorem sample_length {α : Type} [DecidableEq α] (g : Nat → Nat) :
    ∀ (k i : Nat) (l : List α), (sample g i k l).length = min k l.length := by
  intro k
  induction k with
  | zero => intro i l; simp [sample]
  | succ k ih =>
    intro i l
    rw [sample]
    split
    · rename_i h
      simp [h]
    · rename_i h
      have hmem : l.get ⟨g i % l.length, Nat.mod_lt _ (Nat.pos_of_ne_zero h)⟩ ∈ l :=
        List.get_mem _ _ _
      simp only [List.length_cons, ih]
      rw [List.length_erase_of_mem hmem]
      have : 0 < l.length := Nat.pos_of_ne_zero h
      omega

theorem sample_subset {α : Type} [DecidableEq α] (g : Nat → Nat) :
    ∀ (k i : Nat) (l : List α), ∀ x ∈ sample g i k l, x ∈ l := by
  intro k
  induction k with
  | zero => intro i l x hx; simp [sample] at hx
  | succ k ih =>
    intro i l x hx
    rw [sample] at hx
    split at hx
    · simp at hx
    · simp only [List.mem_cons] at hx
      rcases hx with rfl | hx
      · exact List.get_mem _ _ _
      · exact List.erase_subset _ _ (ih _ _ x hx)

theorem sample_nodup {α : Type} [DecidableEq α] (g : Nat → Nat) :
    ∀ (k i : Nat) (l : List α), l.Nodup → (sample g i k l).Nodup := by
  intro k
  induction k with
  | zero => intro i l _; simp [sample]
  | succ k ih =>
    intro i l hl
    rw [sample]
    split
    · exact List.nodup_nil
    · refine List.nodup_cons.mpr ⟨?_, ih _ _ (hl.erase _)⟩
      intro hmem
      have hsub := sample_subset g k (i + 1) (l.erase _) _ hmem
      rw [hl.mem_erase_iff] at hsub
      exact hsub.1 rfl

/-! Lemmas about the conditional assignment block of the need generator. -/

theorem pickFrom_absent (g : Nat → Nat) (j : Nat) : pickFrom none g j = some (none, j) := rfl

theorem pickFrom_present {l : List String} (hl : l ≠ []) (g : Nat → Nat) (j : Nat) :
    ∃ x, x ∈ l ∧ pickFrom (some l) g j = some (some x, j + 1) := by
  obtain ⟨x, hx, hmem⟩ := choice?_eq_some l (g j) hl
  exact ⟨x, hmem, by simp [pickFrom, hx]⟩

theorem assignBlock_inactive (g : Nat → Nat) (j : Nat) (status : String) (requestH : Nat)
    (dIds cIds : Option (List String))
    (hs : ¬(status = "Matched" ∨ status = "In Progress" ∨
            status = "Fulfilled" ∨ status = "Closed")) :
    assignBlock g j status requestH dIds cIds = some (none, none, none, none, j) := by
  unfold assignBlock
  rw [if_neg hs]

theorem assignBlock_active (g : Nat → Nat) (j : Nat) (status : String) (requestH : Nat)
    {ds cs : List String} (hd : ds ≠ []) (hc : cs ≠ [])
    (hs : status = "Matched" ∨ status = "In Progress" ∨
          status = "Fulfilled" ∨ status = "Closed") :
    ∃ m d c fd j', assignBlock g j status requestH (some ds) (some cs)
        = some (some m, some d, some c, fd, j') ∧ requestH + 1 ≤ m ∧
      ((status = "Fulfilled" ∨ status = "Closed") → ∃ f, fd = some f ∧ m + 1 ≤ f) ∧
      (¬(status = "Fulfilled" ∨ status = "Closed") → fd = none) := by
  obtain ⟨d, hdm, hpd⟩ := pickFrom_present hd g (j + 1)
  obtain ⟨c, hcm, hpc⟩ := pickFrom_present hc g (j + 1 + 1)
  unfold assignBlock
  rw [if_pos hs, hpd]
  simp only [Option.some_bind]
  rw [hpc]
  simp only [Option.some_bind]
  have hm1 : requestH + 1 ≤ requestH + randint g j 1 48 := by
    have := randint_lower g j 1 48
    omega
  by_cases hfc : status = "Fulfilled" ∨ status = "Closed"
  · rw [if_pos hfc]
    refine ⟨_, d, c, _, _, rfl, hm1, fun _ => ⟨_, rfl, ?_⟩, fun h => absurd hfc h⟩
    have := randint_lower g (j + 1 + 1 + 1) 1 120
    omega
  · rw [if_neg hfc]
    exact ⟨_, d, c, none, _, rfl, hm1, fun h => absurd h hfc, fun _ => rfl⟩

theorem assignBlock_shape {g : Nat → Nat} {j : Nat} {status : String} {requestH : Nat}
    {dIds cIds : Option (List String)}
    {b : Option Nat × Option String × Option String × Option Nat × Nat}
    (h : assignBlock g j status requestH dIds cIds = some b) :
    ((status = "Matched" ∨ status = "In Progress" ∨
      status = "Fulfilled" ∨ status = "Closed") ∧ ∃ m, b.1 = some m)
    ∨ (b.1 = none ∧ b.2.1 = none ∧ b.2.2.1 = none ∧ b.2.2.2.1 = none) := by
  unfold assignBlock at h
  split at h
  · rename_i hs
    left
    refine ⟨hs, ?_⟩
    rcases hpd : pickFrom dIds g (j + 1) with _ | pd
    · rw [hpd] at h; simp at h
    · rw [hpd] at h
      simp only [Option.some_bind] at h
      rcases hpc : pickFrom cIds g pd.2 with _ | pc
      · rw [hpc] at h; simp at h
      · rw [hpc] at h
        simp only [Option.some_bind] at h
        split at h <;>
          (simp only [Option.some.injEq] at h; rw [← h]; exact ⟨_, rfl⟩)
  · simp only [Option.some.injEq] at h
    right
    rw [← h]
    exact ⟨rfl, rfl, rfl, rfl⟩

theorem assignBlock_absent_tables (g : Nat → Nat) (j : Nat) (status : String) (requestH : Nat) :
    ∃ md fd j', assignBlock g j status requestH none none = some (md, none, none, fd, j') := by
  unfold assignBlock
  split
  · simp only [pickFrom, Option.some_bind]
    split
    · exact ⟨_, _, _, rfl⟩
    · exact ⟨_, _, _, rfl⟩
  · exact ⟨none, none, j, rfl⟩

/-! Row-level invariants of the need generator. -/

/-- the per-row invariant of `needRow` when both id tables are supplied
non-empty. -/
def RowOK (r : NeedRow) : Prop :=
  r.status ∈ statuses ∧
  ((r.status = "Requested" ∨ r.status = "Cancelled") ↔
    (r.matched_date = none ∧ r.fulfilled_date = none ∧
     r.assigned_donor_id = none ∧ r.assigned_church_id = none)) ∧
  ((r.status = "Fulfilled" ∨ r.status = "Closed") →
    ∃ m f, r.matched_date = some m ∧ r.fulfilled_date = some f ∧
      r.request_date ≤ m ∧ m ≤ f)

theorem needRow_spec (g : Nat → Nat) (i idx : Nat) {ds cs : List String}
    (hd : ds ≠ []) (hc : cs ≠ []) :
    ∃ r i', needRow g i idx (some ds) (some cs) = some (r, i') ∧ RowOK r := by
  have hmem := status_mem (g (i + 4))
  by_cases hs : choiceD statuses "" (g (i + 4)) = "Matched" ∨
      choiceD statuses "" (g (i + 4)) = "In Progress" ∨
      choiceD statuses "" (g (i + 4)) = "Fulfilled" ∨
      choiceD statuses "" (g (i + 4)) = "Closed"
  · obtain ⟨m, d, c, fd, j', hab, hm1, hfc, hfn⟩ :=
      assignBlock_active g (i + 5) _ (24 * randint g (i + 3) 0 364) hd hc hs
    refine ⟨_, _, by unfold needRow; rw [hab]; rfl, hmem, ?_, ?_⟩
    · constructor
      · intro h
        rcases hs with h4 | h4 | h4 | h4 <;> rw [h4] at h <;>
          rcases h with h | h <;> simp at h
      · intro h
        simp at h
    · intro hx
      obtain ⟨f, rfl, hmf⟩ := hfc hx
      refine ⟨m / 24, f / 24, by simp, by simp, ?_, ?_⟩
      · exact Nat.div_le_div_right (by omega)
      · exact Nat.div_le_div_right (by omega)
  · have hab := assignBlock_inactive g (i + 5) _ (24 * randint g (i + 3) 0 364)
      (some ds) (some cs) hs
    refine ⟨_, _, by unfold needRow; rw [hab]; rfl, hmem, ?_, ?_⟩
    · constructor
      · intro _
        exact ⟨rfl, rfl, rfl, rfl⟩
      · intro _
        rcases status_six (g (i + 4)) with h | h | h | h | h | h <;> rw [h]
        · exact Or.inl rfl
        · exact absurd (Or.inl h) hs
        · exact absurd (Or.inr (Or.inl h)) hs
        · exact absurd (Or.inr (Or.inr (Or.inl h))) hs
        · exact absurd (Or.inr (Or.inr (Or.inr h))) hs
        · exact Or.inr rfl
    · intro hx
      exact absurd (Or.inr (Or.inr hx)) hs

theorem needRow_absent_tables (g : Nat → Nat) (i idx : Nat) :
    ∃ r i', needRow g i idx none none = some (r, i') ∧
      r.assigned_donor_id = none ∧ r.assigned_church_id = none := by
  obtain ⟨md, fd, j', hab⟩ := assignBlock_absent_tables g (i + 5)
    (choiceD statuses "" (g (i + 4))) (24 * randint g (i + 3) 0 364)
  exact ⟨_, _, by unfold needRow; rw [hab]; rfl, rfl, rfl⟩

theorem needRow_cancelled {g : Nat → Nat} {i idx : Nat} {dIds cIds : Option (List String)}
    {r : NeedRow} {i' : Nat} (h : needRow g i idx dIds cIds = some (r, i'))
    (hcanc : r.status = "Cancelled") :
    r.matched_date = none ∧ r.fulfilled_date = none ∧
    r.assigned_donor_id = none ∧ r.assigned_church_id = none := by
  unfold needRow at h
  rcases hab : assignBlock g (i + 5) (choiceD statuses "" (g (i + 4)))
      (24 * randint g (i + 3) 0 364) dIds cIds with _ | b
  · rw [hab] at h; simp at h
  · rw [hab] at h
    simp only [Option.map_some', Option.some.injEq, Prod.mk.injEq] at h
    obtain ⟨hrec, -⟩ := h
    subst hrec
    rcases assignBlock_shape hab with ⟨hs, m, hm⟩ | ⟨h1, h2, h3, h4⟩
    · exfalso
      simp only at hcanc
      rw [hcanc] at hs
      simp at hs
    · simp [h1, h2, h3, h4]

/-! List-level lemmas for the need generator loop. -/

theorem needsAux_total {P : NeedRow → Prop} (g : Nat → Nat) (dIds cIds : Option (List String))
    (hrow : ∀ i k, ∃ r i', needRow g i k dIds cIds = some (r, i') ∧ P r) :
    ∀ n i k, ∃ rows i', needsAux g dIds cIds i k n = some (rows, i') ∧ ∀ r ∈ rows, P r := by
  intro n
  induction n with
  | zero => intro i k; exact ⟨[], i, rfl, by simp⟩
  | succ n ih =>
    intro i k
    obtain ⟨r, i1, hr, hP⟩ := hrow i k
    obtain ⟨rows, i2, hrows, hall⟩ := ih i1 (k + 1)
    refine ⟨r :: rows, i2, ?_, ?_⟩
    · rw [needsAux, hr]
      simp only [Option.some_bind]
      rw [hrows]
      rfl
    · intro x hx
      rcases List.mem_cons.mp hx with rfl | hx
      · exact hP
      · exact hall x hx

theorem needsAux_forall {P : NeedRow → Prop} (g : Nat → Nat) (dIds cIds : Option (List String))
    (hrow : ∀ i k r i', needRow g i k dIds cIds = some (r, i') → P r) :
    ∀ n i k rows i'', needsAux g dIds cIds i k n = some (rows, i'') → ∀ r ∈ rows, P r := by
  intro n
  induction n with
  | zero =>
    intro i k rows i'' h r hr
    simp only [needsAux, Option.some.injEq, Prod.mk.injEq] at h
    obtain ⟨hrec, -⟩ := h
    rw [← hrec] at hr
    simp at hr
  | succ n ih =>
    intro i k rows i'' h r hr
    rw [needsAux] at h
    rcases hnr : needRow g i k dIds cIds with _ | p
    · rw [hnr] at h; simp at h
    · rw [hnr] at h
      simp only [Option.some_bind] at h
      rcases haux : needsAux g dIds cIds p.2 (k + 1) n with _ | q
      · rw [haux] at h; simp at h
      · rw [haux] at h
        simp only [Option.map_some', Option.some.injEq, Prod.mk.injEq] at h
        obtain ⟨hrec, -⟩ := h
        rw [← hrec] at hr
        rcases List.mem_cons.mp hr with rfl | hr'
        · exact hrow i k p.1 p.2 hnr
        · exact ih p.2 (k + 1) q.1 q.2 haux r hr'

/-! Indexing lemmas for the donor and church loops. -/

theorem donorsAux_get? (g : Nat → Nat) :
    ∀ (n i k j : Nat), j < n →
      ∃ i₀, (donorsAux g i k n).1.get? j = some (donorRow g i₀ (k + j)).1 := by
  intro n
  induction n with
  | zero => intro i k j hj; omega
  | succ n ih =>
    intro i k j hj
    cases j with
    | zero => exact ⟨i, by simp [donorsAux]⟩
    | succ j =>
      obtain ⟨i₀, hi⟩ := ih (donorRow g i k).2 (k + 1) j (by omega)
      refine ⟨i₀, ?_⟩
      have hk : k + (j + 1) = k + 1 + j := by omega
      rw [hk]
      simpa [donorsAux] using hi

theorem churchesAux_get? (g : Nat → Nat) :
    ∀ (n i k j : Nat), j < n →
      ∃ i₀, (churchesAux g i k n).1.get? j = some (churchRow g i₀ (k + j)).1 := by
  intro n
  induction n with
  | zero => intro i k j hj; omega
  | succ n ih =>
    intro i k j hj
    cases j with
    | zero => exact ⟨i, by simp [churchesAux]⟩
    | succ j =>
      obtain ⟨i₀, hi⟩ := ih (churchRow g i k).2 (k + 1) j (by omega)
      refine ⟨i₀, ?_⟩
      have hk : k + (j + 1) = k + 1 + j := by omega
      rw [hk]
      simpa [churchesAux] using hi

/-! Lemmas for the fulfillment deriver loop. -/

theorem fulfillRow_some (g : Nat → Nat) (i k : Nat) {nd : NeedRow} {md fd : Nat}
    (hmd : nd.matched_date = some md) (hfd : nd.fulfilled_date = some fd) :
    fulfillRow g i k nd =
      some ({ fulfillment_id := "FH" ++ zfill 5 (toString k)
              need_id := nd.need_id
              donor_id := nd.assigned_donor_id
              church_id := nd.assigned_church_id
              request_date := nd.request_date
              matched_date := md
              fulfilled_date := fd
              response_time_hours := max 1 (((md : Int) - (nd.request_date : Int)) * 24)
              fulfillment_time_hours := max 1 (((fd : Int) - (md : Int)) * 24)
              category := nd.category
              donor_rating := randint g i 4 5 }, i + 1) := by
  simp [fulfillRow, hmd, hfd]

theorem fulfillmentsAux_total (g : Nat → Nat) :
    ∀ (l : List NeedRow) (i k : Nat),
      (∀ nd ∈ l, nd.matched_date ≠ none ∧ nd.fulfilled_date ≠ none) →
      ∃ fs i', fulfillmentsAux g i k l = some (fs, i') := by
  intro l
  induction l with
  | nil => intro i k _; exact ⟨[], i, rfl⟩
  | cons nd nds ih =>
    intro i k hl
    obtain ⟨hm, hf⟩ := hl nd (by simp)
    rcases hmd : nd.matched_date with _ | md
    · exact absurd hmd hm
    rcases hfd : nd.fulfilled_date with _ | fd
    · exact absurd hfd hf
    obtain ⟨fs, i', haux⟩ := ih (i + 1) (k + 1) (fun x hx => hl x (by simp [hx]))
    exact ⟨{ fulfillment_id := "FH" ++ zfill 5 (toString k)
             need_id := nd.need_id
             donor_id := nd.assigned_donor_id
             church_id := nd.assigned_church_id
             request_date := nd.request_date
             matched_date := md
             fulfilled_date := fd
             response_time_hours := max 1 (((md : Int) - (nd.request_date : Int)) * 24)
             fulfillment_time_hours := max 1 (((fd : Int) - (md : Int)) * 24)
             category := nd.category
             donor_rating := randint g i 4 5 } :: fs, i', by
      rw [fulfillmentsAux, fulfillRow_some g i k hmd hfd]
      simp only [Option.some_bind, haux, Option.map_some']⟩

theorem fulfillmentsAux_get? (g : Nat → Nat) :
    ∀ (l : List NeedRow) (i k : Nat) (fs : List Fulfillment) (i' : Nat),
      fulfillmentsAux g i k l = some (fs, i') →
      fs.length = l.length ∧
      ∀ j nj, l.get? j = some nj → ∃ fj, fs.get? j = some fj ∧
        fj.fulfillment_id = "FH" ++ zfill 5 (toString (k + j)) ∧
        fj.need_id = nj.need_id ∧
        fj.donor_id = nj.assigned_donor_id ∧
        fj.church_id = nj.assigned_church_id ∧
        fj.request_date = nj.request_date ∧
        nj.matched_date = some fj.matched_date ∧
        nj.fulfilled_date = some fj.fulfilled_date ∧
        fj.category = nj.category ∧
        1 ≤ fj.response_time_hours ∧ 1 ≤ fj.fulfillment_time_hours := by
  intro l
  induction l with
  | nil =>
    intro i k fs i' h
    simp only [fulfillmentsAux, Option.some.injEq, Prod.mk.injEq] at h
    obtain ⟨hrec, -⟩ := h
    rw [← hrec]
    exact ⟨rfl, by intro j nj hj; simp at hj⟩
  | cons nd nds ih =>
    intro i k fs i' h
    rw [fulfillmentsAux] at h
    rcases hmd : nd.matched_date with _ | md
    · rcases hfd : nd.fulfilled_date with _ | fd <;> simp [fulfillRow, hmd, hfd] at h
    rcases hfd : nd.fulfilled_date with _ | fd
    · simp [fulfillRow, hmd, hfd] at h
    simp only [fulfillRow, hmd, hfd, Option.some_bind] at h
    rcases haux : fulfillmentsAux g (i + 1) (k + 1) nds with _ | q
    · rw [haux] at h; simp at h
    · rw [haux] at h
      simp only [Option.map_some', Option.some.injEq, Prod.mk.injEq] at h
      obtain ⟨hrec, -⟩ := h
      obtain ⟨hlen, hidx⟩ := ih (i + 1) (k + 1) q.1 q.2 haux
      rw [← hrec]
      constructor
      · simp [hlen]
      · intro j nj hj
        cases j with
        | zero =>
          simp only [List.get?_cons_zero, Option.some.injEq] at hj
          rw [← hj]
          refine ⟨_, rfl, by simp, rfl, rfl, rfl, rfl, hmd, hfd, rfl, ?_, ?_⟩
          · exact le_max_left 1 _
          · exact le_max_left 1 _
        | succ j =>
          simp only [List.get?_cons_succ] at hj ⊢
          obtain ⟨fj, hfj, hid, hrest⟩ := hidx j nj hj
          refine ⟨fj, hfj, ?_, hrest⟩
          rw [hid]
          have : k + 1 + j = k + (j + 1) := by omega
          rw [this]

/-! Concrete generator outputs used to instantiate hypotheses. -/

/-- the single row produced by the need generator on the constant stream
`fun _ => 5` (the status draw picks "Cancelled"); identical whether the id
tables are absent or supplied, since the "Cancelled" branch never reads
them. -/
def cancelledRow : NeedRow :=
  { need_id := "N00001", request_date := 5, category := "Childcare",
    item_description := "diapers", quantity := 6, urgency := "Medium",
    family_id := "F0006", city := "Charlotte", state := "NC", zip_code := "28201",
    status := "Cancelled", matched_date := none, fulfilled_date := none,
    assigned_donor_id := none, assigned_church_id := none, notes := "" }

/-- the single row produced by the need generator on the constant stream
`fun _ => 3` with tables `["D0001"]` and `["C001"]`: status "Fulfilled",
request at day 3 with a 4-hour matched offset and a further 4-hour
fulfilled offset, so all three stored dates are day 3. -/
def fulfilledSameDayRow : NeedRow :=
  { need_id := "N00001", request_date := 3, category := "School Supplies",
    item_description := "calculator", quantity := 4, urgency := "Critical",
    family_id := "F0004", city := "Birmingham", state := "AL", zip_code := "35204",
    status := "Fulfilled", matched_date := some 3, fulfilled_date := some 3,
    assigned_donor_id := some "D0001", assigned_church_id := some "C001", notes := "" }

/-! Claim C1. -/

/-- Claim C1, counterexample: invoking the need generator with
present-but-empty donor and church tables and count 10 does not complete
without error — the source raises (`IndexError`/`KeyError`) on the first
row that draws a status requiring an assignment, here status "Matched" on
row 1, so the run produces no table at all. -/
theorem C1_counterexample :
    generate_needs (fun _ => 1) 0 10 (some []) (some []) = none := by rfl

/-- Claim C1 (amended): when the donor and church tables are absent
(`None`), the need generator completes without error for every count and
every random stream, and every generated row has both assignment fields
unset, regardless of the row's status.  (With present-but-empty tables the
call instead errors as soon as a row draws a status in
{Matched, In Progress, Fulfilled, Closed}.) -/
theorem C1_absent_tables_unassigned (g : Nat → Nat) (i n : Nat) :
    ∃ rows i', generate_needs g i n none none = some (rows, i') ∧
      ∀ r ∈ rows, r.assigned_donor_id = none ∧ r.assigned_church_id = none :=
  needsAux_total g none none (fun i k => needRow_absent_tables g i k) n i 1

/-! Claim C2. -/

/-- Claim C2, counterexample: a generated row (tables supplied non-empty)
whose status is not "Requested" and yet has matched timestamp, fulfilled
timestamp, donor assignment and church assignment all unset — so
"status = Requested ⇔ all unset" fails in the right-to-left direction. -/
theorem C2_counterexample :
    ∃ rows i',
      generate_needs (fun _ => 5) 0 1 (some ["D0001"]) (some ["C001"]) = some (rows, i') ∧
      ∃ r ∈ rows, r.status ≠ "Requested" ∧
        r.matched_date = none ∧ r.fulfilled_date = none ∧
        r.assigned_donor_id = none ∧ r.assigned_church_id = none :=
  ⟨[cancelledRow], 10, by rfl, cancelledRow, by simp, by decide⟩

/-- Claim C2 (amended): with both id tables supplied non-empty, every
record produced by the need generator satisfies: status is "Requested" or
"Cancelled" if and only if the matched timestamp, the fulfilled timestamp,
the donor assignment and the church assignment are all unset. -/
theorem C2_requested_iff_unset (g : Nat → Nat) (i n : Nat) {ds cs : List String}
    (hd : ds ≠ []) (hc : cs ≠ []) :
    ∃ rows i', generate_needs g i n (some ds) (some cs) = some (rows, i') ∧
      ∀ r ∈ rows, ((r.status = "Requested" ∨ r.status = "Cancelled") ↔
        (r.matched_date = none ∧ r.fulfilled_date = none ∧
         r.assigned_donor_id = none ∧ r.assigned_church_id = none)) :=
  needsAux_total g (some ds) (some cs) (fun i k => by
    obtain ⟨r, i', h, hok⟩ := needRow_spec g i k hd hc
    exact ⟨r, i', h, hok.2.1⟩) n i 1

/-- Claim C2, witness for the amended theorem at a concrete input. -/
theorem C2_witness :
    (["D0001"] : List String) ≠ [] ∧ (["C001"] : List String) ≠ [] ∧
    (∃ rows i',
      generate_needs (fun _ => 0) 0 1 (some ["D0001"]) (some ["C001"]) = some (rows, i') ∧
      ∀ r ∈ rows, ((r.status = "Requested" ∨ r.status = "Cancelled") ↔
        (r.matched_date = none ∧ r.fulfilled_date = none ∧
         r.assigned_donor_id = none ∧ r.assigned_church_id = none))) :=
  ⟨by decide, by decide, C2_requested_iff_unset (fun _ => 0) 0 1 (by decide) (by decide)⟩

/-! Claim C3. -/

/-- Claim C3, counterexample: a generated "Fulfilled" row whose stored
matched and fulfilled dates both equal the stored request date (`%Y-%m-%d`
storage is date-granular, and the 1–48h and 1–120h offsets here are 4
hours each, staying on the same calendar day), so neither "stored
fulfilled > stored matched" nor "stored matched > stored request" holds. -/
theorem C3_counterexample :
    ∃ rows i',
      generate_needs (fun _ => 3) 0 1 (some ["D0001"]) (some ["C001"]) = some (rows, i') ∧
      ∃ r ∈ rows, (r.status = "Fulfilled" ∨ r.status = "Closed") ∧
        r.matched_date = some r.request_date ∧ r.fulfilled_date = some r.request_date :=
  ⟨[fulfilledSameDayRow], 14, by rfl, fulfilledSameDayRow, by simp, by decide⟩

/-- Claim C3 (amended): with both id tables supplied non-empty, every
record produced by the need generator with status "Fulfilled" or "Closed"
has both timestamps present, with stored fulfilled date ≥ stored matched
date ≥ stored request date.  (The underlying datetimes strictly increase —
the offsets are at least one hour — but the stored fields are
date-granular, so equality of stored values is possible and strictness
fails.) -/
theorem C3_stored_dates_monotone (g : Nat → Nat) (i n : Nat) {ds cs : List String}
    (hd : ds ≠ []) (hc : cs ≠ []) :
    ∃ rows i', generate_needs g i n (some ds) (some cs) = some (rows, i') ∧
      ∀ r ∈ rows, (r.status = "Fulfilled" ∨ r.status = "Closed") →
        ∃ m f, r.matched_date = some m ∧ r.fulfilled_date = some f ∧
          r.request_date ≤ m ∧ m ≤ f :=
  needsAux_total g (some ds) (some cs) (fun i k => by
    obtain ⟨r, i', h, hok⟩ := needRow_spec g i k hd hc
    exact ⟨r, i', h, hok.2.2⟩) n i 1

/-- Claim C3, witness for the amended theorem at a concrete input. -/
theorem C3_witness :
    (["D0001"] : List String) ≠ [] ∧ (["C001"] : List String) ≠ [] ∧
    (∃ rows i',
      generate_needs (fun _ => 3) 0 2 (some ["D0001"]) (some ["C001"]) = some (rows, i') ∧
      ∀ r ∈ rows, (r.status = "Fulfilled" ∨ r.status = "Closed") →
        ∃ m f, r.matched_date = some m ∧ r.fulfilled_date = some f ∧
          r.request_date ≤ m ∧ m ≤ f) :=
  ⟨by decide, by decide, C3_stored_dates_monotone (fun _ => 3) 0 2 (by decide) (by decide)⟩

/-! Claim C4. -/

/-- Claim C4 (confirmed): for a well-formed need table (every row with
status "Fulfilled" or "Closed" carries both timestamps, as the need
generator guarantees), the fulfillment deriver succeeds, its record count
equals the number of input rows whose status is "Fulfilled" or "Closed",
and every record's response and fulfillment durations are integers that
are at least 1. -/
theorem C4_count_and_durations (g : Nat → Nat) (i : Nat) (needs : List NeedRow)
    (hwf : ∀ nd ∈ needs, needKeep nd = true →
      nd.matched_date ≠ none ∧ nd.fulfilled_date ≠ none) :
    ∃ fs i', generate_fulfillments g i needs = some (fs, i') ∧
      fs.length = (needs.filter needKeep).length ∧
      ∀ f ∈ fs, 1 ≤ f.response_time_hours ∧ 1 ≤ f.fulfillment_time_hours := by
  obtain ⟨fs, i', h⟩ := fulfillmentsAux_total g (needs.filter needKeep) i 1
    (fun nd hnd => hwf nd (List.mem_filter.mp hnd).1 (List.mem_filter.mp hnd).2)
  obtain ⟨hlen, hidx⟩ := fulfillmentsAux_get? g _ _ _ _ _ h
  refine ⟨fs, i', h, hlen, ?_⟩
  intro f hf
  obtain ⟨j, hj⟩ := List.get?_of_mem hf
  have hjl : j < fs.length := by
    rcases List.get?_eq_some.mp hj with ⟨hb, -⟩
    exact hb
  have hjl2 : j < (needs.filter needKeep).length := by omega
  obtain ⟨fj, hfj, -, -, -, -, -, -, -, -, hr1, hr2⟩ :=
    hidx j _ (List.get?_eq_get hjl2)
  have hjf : fj = f := by
    rw [hfj] at hj
    exact Option.some.inj hj
  rw [← hjf]
  exact ⟨hr1, hr2⟩

/-- Claim C4, witness at a concrete one-row need table. -/
theorem C4_witness :
    (∀ nd ∈ [fulfilledSameDayRow], needKeep nd = true →
      nd.matched_date ≠ none ∧ nd.fulfilled_date ≠ none) ∧
    (∃ fs i', generate_fulfillments (fun _ => 0) 0 [fulfilledSameDayRow] = some (fs, i') ∧
      fs.length = ([fulfilledSameDayRow].filter needKeep).length ∧
      ∀ f ∈ fs, 1 ≤ f.response_time_hours ∧ 1 ≤ f.fulfillment_time_hours) :=
  ⟨by decide, C4_count_and_durations (fun _ => 0) 0 [fulfilledSameDayRow] (by decide)⟩

/-! Claim C5. -/

/-- Claim C5 (confirmed): the full generation pipeline at counts
(150, 30, 500) is a function of the random stream alone, so two runs whose
streams agree draw-for-draw (as two runs from the same seed do) produce
identical donor, church, need and fulfillment tables. -/
theorem C5_determinism (g1 g2 : Nat → Nat) (h : ∀ k, g1 k = g2 k) :
    generate_all g1 150 30 500 = generate_all g2 150 30 500 := by
  have hg : g1 = g2 := funext h
  rw [hg]

/-- Claim C5, witness at a concrete stream. -/
theorem C5_witness :
    (∀ k : Nat, (fun (_ : Nat) => 0) k = (fun (_ : Nat) => 0) k) ∧
    generate_all (fun _ => 0) 150 30 500 = generate_all (fun _ => 0) 150 30 500 :=
  ⟨fun _ => rfl, C5_determinism _ _ (fun _ => rfl)⟩

/-! Claim C6. -/

/-- Claim C6 (confirmed): the church at 1-based sequential index `j + 1`
has base name `church_names[(j + 1) % church_names.length]`, and its
stored name is that base name with " - " and the chosen city appended
exactly when `j + 1 > church_names.length`, and the base name alone
otherwise. -/
theorem C6_church_names (g : Nat → Nat) (i n j : Nat) (hj : j < n) :
    ∃ c, (generate_churches g i n).1.get? j = some c ∧
      c.name = if church_names.length < j + 1
               then church_names.getD ((j + 1) % church_names.length) "" ++ " - " ++ c.city
               else church_names.getD ((j + 1) % church_names.length) "" := by
  obtain ⟨i₀, hi⟩ := churchesAux_get? g n i 1 j hj
  rw [Nat.add_comm 1 j] at hi
  exact ⟨_, hi, by dsimp only [churchRow]⟩

/-- Claim C6, witness at a concrete input. -/
theorem C6_witness :
    0 < 1 ∧
    (∃ c, (generate_churches (fun _ => 0) 0 1).1.get? 0 = some c ∧
      c.name = if church_names.length < 0 + 1
               then church_names.getD ((0 + 1) % church_names.length) "" ++ " - " ++ c.city
               else church_names.getD ((0 + 1) % church_names.length) "") :=
  ⟨by decide, C6_church_names (fun _ => 0) 0 1 0 (by decide)⟩

/-! Claim C7. -/

/-- Claim C7 (confirmed): every record produced by the donor generator has
a specialties list of between 1 and 3 entries, duplicate-free, all drawn
from the fixed category list. -/
theorem C7_donor_specialties (g : Nat → Nat) (i n j : Nat) (hj : j < n) :
    ∃ d, (generate_donors g i n).1.get? j = some d ∧
      1 ≤ d.specialties.length ∧ d.specialties.length ≤ 3 ∧
      d.specialties.Nodup ∧ ∀ s ∈ d.specialties, s ∈ categories := by
  obtain ⟨i₀, hi⟩ := donorsAux_get? g n i 1 j hj
  refine ⟨_, hi, ?_, ?_, ?_, ?_⟩
  · dsimp only [donorRow]
    rw [sample_length]
    have h8 : categories.length = 8 := rfl
    rw [h8]
    unfold randint
    omega
  · dsimp only [donorRow]
    rw [sample_length]
    have h8 : categories.length = 8 := rfl
    rw [h8]
    unfold randint
    omega
  · dsimp only [donorRow]
    exact sample_nodup g _ _ categories (by decide)
  · dsimp only [donorRow]
    intro s hs
    exact sample_subset g _ _ categories s hs

/-- Claim C7, witness at a concrete input. -/
theorem C7_witness :
    0 < 1 ∧
    (∃ d, (generate_donors (fun _ => 0) 0 1).1.get? 0 = some d ∧
      1 ≤ d.specialties.length ∧ d.specialties.length ≤ 3 ∧
      d.specialties.Nodup ∧ ∀ s ∈ d.specialties, s ∈ categories) :=
  ⟨by decide, C7_donor_specialties (fun _ => 0) 0 1 0 (by decide)⟩

/-! Claim C8. -/

/-- Claim C8 (confirmed): the fulfillment record at position `j` (0-based)
carries the category, donor id, church id and the three stored dates of
the `j`-th retained need verbatim, and its fulfillment identifier is the
sequential `"FH" ++ zfill 5 (j + 1)`, independent of the source need's
identifier. -/
theorem C8_fields_verbatim (g : Nat → Nat) (i : Nat) (needs : List NeedRow)
    (hwf : ∀ nd ∈ needs, needKeep nd = true →
      nd.matched_date ≠ none ∧ nd.fulfilled_date ≠ none)
    (j : Nat) (nj : NeedRow) (hj : (needs.filter needKeep).get? j = some nj) :
    ∃ fs i' fj, generate_fulfillments g i needs = some (fs, i') ∧
      fs.get? j = some fj ∧
      fj.fulfillment_id = "FH" ++ zfill 5 (toString (1 + j)) ∧
      fj.need_id = nj.need_id ∧
      fj.category = nj.category ∧
      fj.donor_id = nj.assigned_donor_id ∧
      fj.church_id = nj.assigned_church_id ∧
      fj.request_date = nj.request_date ∧
      nj.matched_date = some fj.matched_date ∧
      nj.fulfilled_date = some fj.fulfilled_date := by
  obtain ⟨fs, i', h⟩ := fulfillmentsAux_total g (needs.filter needKeep) i 1
    (fun nd hnd => hwf nd (List.mem_filter.mp hnd).1 (List.mem_filter.mp hnd).2)
  obtain ⟨hlen, hidx⟩ := fulfillmentsAux_get? g _ _ _ _ _ h
  obtain ⟨fj, hfj, hid, hnid, hdid, hcid, hreq, hmd, hfd, hcat, -, -⟩ := hidx j nj hj
  exact ⟨fs, i', fj, h, hfj, hid, hnid, hcat, hdid, hcid, hreq, hmd, hfd⟩

/-- Claim C8, witness at a concrete one-row need table. -/
theorem C8_witness :
    (∀ nd ∈ [fulfilledSameDayRow], needKeep nd = true →
      nd.matched_date ≠ none ∧ nd.fulfilled_date ≠ none) ∧
    ([fulfilledSameDayRow].filter needKeep).get? 0 = some fulfilledSameDayRow ∧
    (∃ fs i' fj, generate_fulfillments (fun _ => 0) 0 [fulfilledSameDayRow] = some (fs, i') ∧
      fs.get? 0 = some fj ∧
      fj.fulfillment_id = "FH" ++ zfill 5 (toString (1 + 0)) ∧
      fj.need_id = fulfilledSameDayRow.need_id ∧
      fj.category = fulfilledSameDayRow.category ∧
      fj.donor_id = fulfilledSameDayRow.assigned_donor_id ∧
      fj.church_id = fulfilledSameDayRow.assigned_church_id ∧
      fj.request_date = fulfilledSameDayRow.request_date ∧
      fulfilledSameDayRow.matched_date = some fj.matched_date ∧
      fulfilledSameDayRow.fulfilled_date = some fj.fulfilled_date) :=
  ⟨by decide, by decide,
   C8_fields_verbatim (fun _ => 0) 0 [fulfilledSameDayRow] (by decide) 0
     fulfilledSameDayRow (by decide)⟩

/-! Claim C9. -/

/-- Claim C9 (confirmed): every record produced by the need generator with
status "Cancelled" has matched timestamp, fulfilled timestamp, donor
assignment and church assignment all unset, exactly as for "Requested" —
whatever id tables were passed. -/
theorem C9_cancelled_unset (g : Nat → Nat) (i n : Nat) (dIds cIds : Option (List String))
    (rows : List NeedRow) (i' : Nat)
    (h : generate_needs g i n dIds cIds = some (rows, i')) :
    ∀ r ∈ rows, r.status = "Cancelled" →
      r.matched_date = none ∧ r.fulfilled_date = none ∧
      r.assigned_donor_id = none ∧ r.assigned_church_id = none :=
  needsAux_forall g dIds cIds
    (fun _ _ _ _ hr hc => needRow_cancelled hr hc) n i 1 rows i' h

/-- Claim C9, witness at a concrete generator run. -/
theorem C9_witness :
    cancelledRow.matched_date = none ∧ cancelledRow.fulfilled_date = none ∧
    cancelledRow.assigned_donor_id = none ∧ cancelledRow.assigned_church_id = none :=
  C9_cancelled_unset (fun _ => 5) 0 1 none none [cancelledRow] 10 (by rfl)
    cancelledRow (by simp) (by rfl)

/-! Claim C10. -/

/-- Claim C10 (confirmed): the fulfillment record at each position `j`
references the need id of the `j`-th row of the retained (status
"Fulfilled" or "Closed") sub-table of the input, that row belongs to the
input table, and the deriver emits exactly one fulfillment per retained
need in input order (so distinct fulfillment records reference distinct
need rows). -/
theorem C10_one_per_retained_need (g : Nat → Nat) (i : Nat) (needs : List NeedRow)
    (hwf : ∀ nd ∈ needs, needKeep nd = true →
      nd.matched_date ≠ none ∧ nd.fulfilled_date ≠ none)
    (j : Nat) (hj : j < (needs.filter needKeep).length) :
    ∃ fs i' fj nj, generate_fulfillments g i needs = some (fs, i') ∧
      fs.length = (needs.filter needKeep).length ∧
      fs.get? j = some fj ∧ (needs.filter needKeep).get? j = some nj ∧
      fj.need_id = nj.need_id ∧ nj ∈ needs ∧
      (nj.status = "Fulfilled" ∨ nj.status = "Closed") := by
  obtain ⟨fs, i', h⟩ := fulfillmentsAux_total g (needs.filter needKeep) i 1
    (fun nd hnd => hwf nd (List.mem_filter.mp hnd).1 (List.mem_filter.mp hnd).2)
  obtain ⟨hlen, hidx⟩ := fulfillmentsAux_get? g _ _ _ _ _ h
  have hnj := List.get?_eq_get hj
  obtain ⟨fj, hfj, -, hnid, -, -, -, -, -, -, -, -⟩ := hidx j _ hnj
  have hmemf : (needs.filter needKeep).get ⟨j, hj⟩ ∈ needs.filter needKeep :=
    List.get_mem _ _ _
  refine ⟨fs, i', fj, _, h, hlen, hfj, hnj, hnid, (List.mem_filter.mp hmemf).1, ?_⟩
  have hkeep := (List.mem_filter.mp hmemf).2
  simpa [needKeep] using hkeep

/-- Claim C10, witness at a concrete one-row need table. -/
theorem C10_witness :
    (∀ nd ∈ [fulfilledSameDayRow], needKeep nd = true →
      nd.matched_date ≠ none ∧ nd.fulfilled_date ≠ none) ∧
    0 < ([fulfilledSameDayRow].filter needKeep).length ∧
    (∃ fs i' fj nj, generate_fulfillments (fun _ => 0) 0 [fulfilledSameDayRow] = some (fs, i') ∧
      fs.length = ([fulfilledSameDayRow].filter needKeep).length ∧
      fs.get? 0 = some fj ∧ ([fulfilledSameDayRow].filter needKeep).get? 0 = some nj ∧
      fj.need_id = nj.need_id ∧ nj ∈ [fulfilledSameDayRow] ∧
      (nj.status = "Fulfilled" ∨ nj.status = "Closed")) :=
  ⟨by decide, by decide,
   C10_one_per_retained_need (fun _ => 0) 0 [fulfilledSameDayRow] (by decide) 0 (by decide)⟩

end CarePortal
